import Mathlib

/-!
Shallow embedding of the NBA statistics viewer frontend (React/TypeScript).

The view-state controller lives in `frontend/src/App.tsx`; the standings
partition lives in `frontend/src/Standings.tsx`.  State slots become record
fields, each `useState` setter becomes a field update, each `fetch` handler
becomes a pure state transformer parameterised by the outcome of the remote
call, and the event-driven runtime (user events interleaved with resolving
network callbacks on one logical thread) becomes a small-step relation `Step`
on a system state that also tracks the in-flight requests and the pending
debounce timer.

JavaScript string operations (`toLowerCase`, `trim`, `includes`,
`localeCompare`) are modelled over the character list of the string; numeric
stat values are modelled as rationals.
-/

/-! ## JavaScript string primitives -/

/-- Model of JavaScript `String.prototype.toLowerCase` (ASCII case folding). -/
def jsToLower (s : String) : String :=
  ⟨s.data.map Char.toLower⟩

/-- `listStartsWith pat l` is true when `pat` is an initial segment of `l`. -/
def listStartsWith : List Char → List Char → Bool
  | [], _ => true
  | _ :: _, [] => false
  | p :: ps, c :: cs => p == c && listStartsWith ps cs

/-- `listContainsSeq pat l` is true when `pat` occurs contiguously in `l`. -/
def listContainsSeq (pat : List Char) : List Char → Bool
  | [] => pat.isEmpty
  | c :: cs => listStartsWith pat (c :: cs) || listContainsSeq pat cs

/-- Model of JavaScript `String.prototype.includes`. -/
def jsIncludes (s pat : String) : Bool :=
  listContainsSeq pat.data s.data

/-- Model of JavaScript `String.prototype.trim`. -/
def jsTrim (s : String) : String :=
  ⟨((s.data.dropWhile Char.isWhitespace).reverse.dropWhile Char.isWhitespace).reverse⟩

/-! ## DTO types (App.tsx lines 25-108, Standings.tsx lines 21-41) -/

/-- `Leader` row of a leaderboard response (App.tsx `type Leader`). -/
structure Leader where
  player_id : Int
  player_name : String
  team_abbreviation : String
  fg3_pct : Option ℚ
  fg3m : Option ℚ
  fg3a : Option ℚ
  fg_pct : Option ℚ
  fgm : Option ℚ
  fga : Option ℚ
  value : Option ℚ
  gp : Nat
deriving DecidableEq, Repr

/-- `LeadersResponse` (App.tsx).  `leaders` is optional to model the runtime
guard `data.leaders ?? []`. -/
structure LeadersResponse where
  season : String
  min_3pa : Option Nat
  min_fga : Option Nat
  min_gp : Nat
  limit : Nat
  count : Nat
  leaders : Option (List Leader)
  generated_at : String
  source : String
deriving DecidableEq, Repr

/-- `PlayerHit` (App.tsx `type PlayerHit`). -/
structure PlayerHit where
  nba_player_id : Int
  full_name : String
  nba_team_id : Option Int
deriving DecidableEq, Repr

/-- `PlayerSearchResponse` (App.tsx).  `players` is optional to model the
runtime guard `data.players ?? []`. -/
structure PlayerSearchResponse where
  query : String
  count : Nat
  players : Option (List PlayerHit)
deriving DecidableEq, Repr

/-- One game-log row (App.tsx `type PlayerLastNGameRow`). -/
structure PlayerLastNGameRow where
  nba_game_id : String
  game_date : Option String
  nba_team_id : Option Int
  minutes : Option String
  fg_pct : Option ℚ
  pts : Option ℚ
  reb : Option ℚ
  ast : Option ℚ
  stl : Option ℚ
  blk : Option ℚ
  tov : Option ℚ
  fg3m : Option ℚ
  fg3a : Option ℚ
  plus_minus : Option ℚ
deriving DecidableEq, Repr

/-- Per-stat nullable averages (App.tsx `PlayerLastNResponse.averages`). -/
structure PlayerAverages where
  pts : Option ℚ
  reb : Option ℚ
  ast : Option ℚ
  stl : Option ℚ
  blk : Option ℚ
  tov : Option ℚ
  min : Option ℚ
  fg_pct : Option ℚ
  fg3_pct : Option ℚ
  ft_pct : Option ℚ
deriving DecidableEq, Repr

/-- `PlayerLastNResponse` (App.tsx). -/
structure PlayerLastNResponse where
  nba_player_id : Int
  n : Nat
  count : Nat
  averages : PlayerAverages
  games : List PlayerLastNGameRow
  source : String
deriving DecidableEq, Repr

/-- `Team` standings row (Standings.tsx `type Team`). -/
structure Team where
  team_id : Option Int
  team_name : Option String
  team_city : Option String
  team_slug : Option String
  conference : Option String
  playoff_rank : Option Int
  wins : Option Int
  losses : Option Int
  win_pct : Option ℚ
  l10 : Option String
  streak : Option String
deriving DecidableEq, Repr

/-- `StandingsResponse` (Standings.tsx).  `teams` is optional to model the
runtime guard `data.teams ?? []`. -/
structure StandingsResponse where
  season : String
  generated_at : Option String
  count : Nat
  teams : Option (List Team)
  source : String
deriving DecidableEq, Repr

/-! ## Remote call outcomes

A `fetch` either resolves to an HTTP response — carrying the `ok` flag
(2xx status) and the result of `r.json()` (`none` when the body fails to
parse, so that `.json()` rejects) — or rejects with a network error. -/

inductive FetchOutcome (α : Type) where
  | response (ok : Bool) (body : Option α)
  | networkError

/-! ## Request descriptions (URL template + query parameters) -/

/-- Leaderboard request, from the `leadersEndpoint` URL builder. -/
structure LeadersReq where
  category : String
  season : String
  min_gp : Nat
  min_3pa : Option Nat
  min_fga : Option Nat
  limit : Nat
deriving DecidableEq, Repr

/-- Typeahead search request `/warehouse/players/search?q=..&limit=10`. -/
structure SearchReq where
  q : String
  limit : Nat
deriving DecidableEq, Repr

/-- Deep-link search request issued by `jumpToPlayerFromLeader`
(`limit=5`), remembered together with the leaderboard row's player id the
response will be scanned for. -/
structure JumpReq where
  playerId : Int
  q : String
  limit : Nat
deriving DecidableEq, Repr

/-- Game-log request `/warehouse/player/{id}/last_n?n=..`. -/
structure LastNReq where
  playerId : Int
  n : Nat
deriving DecidableEq, Repr

/-! ## UI enumerations and constants -/

inductive AppTab where
  | home | ai | player | leaders | standings
deriving DecidableEq, Repr

inductive LeaderTab where
  | threePt | pts | reb | ast | blk | fg
deriving DecidableEq, Repr

inductive FetchStatus where
  | idle | loading | ok | error
deriving DecidableEq, Repr

def DEFAULT_LAST_N : Nat := 10

def ALL_GAMES_N : Nat := 9999

/-- `IMPLEMENTED_ROUTES` (App.tsx): every leaderboard route is wired. -/
def IMPLEMENTED_ROUTES : LeaderTab → Bool := fun _ => true

/-- The `leadersEndpoint` memo (App.tsx lines 749-761): category, fixed
season, category-specific thresholds and the current limit. -/
def leadersEndpoint (t : LeaderTab) (lim : Nat) : LeadersReq :=
  match t with
  | .threePt => { category := "3pt", season := "2025-26", min_gp := 10, min_3pa := some 50, min_fga := none, limit := lim }
  | .pts => { category := "pts", season := "2025-26", min_gp := 10, min_3pa := none, min_fga := none, limit := lim }
  | .reb => { category := "reb", season := "2025-26", min_gp := 10, min_3pa := none, min_fga := none, limit := lim }
  | .ast => { category := "ast", season := "2025-26", min_gp := 10, min_3pa := none, min_fga := none, limit := lim }
  | .blk => { category := "blk", season := "2025-26", min_gp := 10, min_3pa := none, min_fga := none, limit := lim }
  | .fg => { category := "fg", season := "2025-26", min_gp := 10, min_3pa := none, min_fga := some 100, limit := lim }

/-! ## The view-state controller's state (the `useState` slots of `App`) -/

structure AppState where
  tab : AppTab
  isTabTransitioning : Bool
  pendingTab : Option AppTab
  leaderTab : LeaderTab
  leadersStatus : FetchStatus
  leaders : List Leader
  leadersLimit : Nat
  canLoadMore : Bool
  playerQuery : String
  playerSearchStatus : FetchStatus
  playerResults : List PlayerHit
  selectedPlayer : Option PlayerHit
  playerStatsStatus : FetchStatus
  playerStats : Option PlayerLastNResponse
  showAllGames : Bool
deriving DecidableEq, Repr

/-! ## Tab navigation machine (App.tsx lines 668-684) -/

/-- `requestTabChange(next)`: no-op when `next` is the active tab or a
transition is in flight; otherwise record the pending tab and lock input. -/
def requestTabChange (next : AppTab) (a : AppState) : AppState :=
  if next = a.tab then a
  else if a.isTabTransitioning then a
  else { a with pendingTab := some next, isTabTransitioning := true }

/-- The swap timer callback: `const target = pendingTabRef.current;
if (target) setTab(target)`. -/
def tabSwapFire (a : AppState) : AppState :=
  match a.pendingTab with
  | some t => { a with tab := t }
  | none => a

/-- The unlock timer callback: clear the pending slot and unlock input. -/
def tabUnlockFire (a : AppState) : AppState :=
  { a with pendingTab := none, isTabTransitioning := false }

/-! ## Leaders slot (App.tsx lines 715-729 and 767-792) -/

/-- `useEffect` on `[leaderTab]` (lines 715-718): reset paging when the
leaderboard sub-tab changes. -/
def leaderTabResetEffect (a : AppState) : AppState :=
  { a with leadersLimit := 10, canLoadMore := true }

/-- `useEffect` on `[tab]` (lines 724-729): reset paging whenever the
Leaders page is re-entered. -/
def tabEnterResetEffect (a : AppState) : AppState :=
  if a.tab = .leaders then { a with leadersLimit := 10, canLoadMore := true } else a

/-- The synchronous part of `fetchLeaders` (lines 767-777): either the
not-implemented early return, or status `loading` plus the request built by
`leadersEndpoint` from the current category and limit. -/
def fetchLeadersStart (a : AppState) : AppState × Option LeadersReq :=
  if IMPLEMENTED_ROUTES a.leaderTab = false then
    ({ a with leaders := [], leadersStatus := .idle, canLoadMore := true }, none)
  else
    ({ a with leadersStatus := .loading }, some (leadersEndpoint a.leaderTab a.leadersLimit))

/-- The continuation of `fetchLeaders` (lines 778-791): a non-2xx status
throws before the body is read, a parse failure or network error also lands
in the `catch`; on success the list fully replaces the slot and
`canLoadMore` is recomputed against the requested limit (captured by the
closure that built the request). -/
def fetchLeadersComplete (req : LeadersReq) (o : FetchOutcome LeadersResponse)
    (a : AppState) : AppState :=
  match o with
  | .networkError => { a with leadersStatus := .error }
  | .response ok body =>
    if ok = false then { a with leadersStatus := .error }
    else
      match body with
      | none => { a with leadersStatus := .error }
      | some data =>
        let list := data.leaders.getD []
        { a with leaders := list,
                 canLoadMore := decide (req.limit ≤ list.length),
                 leadersStatus := .ok }

/-! ## Typeahead search and game-log slots (App.tsx lines 799-830) -/

/-- The synchronous part of `fetchPlayerSearch` (lines 799-808): an empty
trimmed query resets the slot and issues nothing; otherwise status `loading`
and a request for the trimmed query with `limit=10`. -/
def fetchPlayerSearchStart (q : String) (a : AppState) : AppState × Option SearchReq :=
  let trimmed := jsTrim q
  if trimmed = "" then
    ({ a with playerResults := [], playerSearchStatus := .idle }, none)
  else
    ({ a with playerSearchStatus := .loading }, some { q := trimmed, limit := 10 })

/-- The `fetchPlayerSearch` continuation (lines 809-814).  The source reads
`r.json()` without consulting `r.ok`, so the HTTP status flag is ignored
here; only a parse failure or network error reaches the `catch`. -/
def fetchPlayerSearchComplete (o : FetchOutcome PlayerSearchResponse)
    (a : AppState) : AppState :=
  match o with
  | .networkError => { a with playerSearchStatus := .error }
  | .response _statusOk body =>
    match body with
    | none => { a with playerSearchStatus := .error }
    | some data =>
      { a with playerResults := data.players.getD [], playerSearchStatus := .ok }

/-- The `fetchPlayerLastN` continuation (lines 824-829).  As with search,
`r.ok` is never consulted, and the committed response is not checked
against the currently selected player. -/
def fetchPlayerLastNComplete (o : FetchOutcome PlayerLastNResponse)
    (a : AppState) : AppState :=
  match o with
  | .networkError => { a with playerStatsStatus := .error }
  | .response _statusOk body =>
    match body with
    | none => { a with playerStatsStatus := .error }
    | some data =>
      { a with playerStats := some data, playerStatsStatus := .ok }

/-! ## Standings (Standings.tsx) -/

/-- Conference key: `(t.conference ?? "").toLowerCase()`, as characters. -/
def teamConfKey (t : Team) : List Char :=
  (jsToLower (t.conference.getD "")).data

/-- Rank key: `t.playoff_rank ?? 999`. -/
def teamRankKey (t : Team) : Int :=
  t.playoff_rank.getD 999

/-- Win-percentage key: `t.win_pct ?? -1`. -/
def teamPctKey (t : Team) : ℚ :=
  t.win_pct.getD (-1)

/-- The comparator inside `sortStandings` (Standings.tsx lines 49-63):
conference label first (`localeCompare`, modelled by lexicographic character
order), then ascending playoff rank, then descending win percentage. -/
def standingsCmp (a b : Team) : Ordering :=
  if teamConfKey a ≠ teamConfKey b then
    (if teamConfKey a < teamConfKey b then .lt else .gt)
  else if teamRankKey a ≠ teamRankKey b then
    (if teamRankKey a < teamRankKey b then .lt else .gt)
  else if teamPctKey b < teamPctKey a then .lt
  else if teamPctKey a < teamPctKey b then .gt
  else .eq

/-- `a` sorts no later than `b` under the comparator. -/
def standingsLE (a b : Team) : Prop :=
  standingsCmp a b ≠ .gt

instance : DecidableRel standingsLE := fun a b => by
  unfold standingsLE
  infer_instance

/-- `sortStandings` (Standings.tsx lines 49-63): a stable sort of the teams
by the comparator. -/
def sortStandings (teams : List Team) : List Team :=
  List.insertionSort standingsLE teams

/-- The `east` derivation (Standings.tsx line 261). -/
def eastOf (teams : List Team) : List Team :=
  teams.filter (fun t => jsIncludes (jsToLower (t.conference.getD "")) "east")

/-- The `west` derivation (Standings.tsx line 262). -/
def westOf (teams : List Team) : List Team :=
  teams.filter (fun t => jsIncludes (jsToLower (t.conference.getD "")) "west")

/-- The standings component's own state slots. -/
structure StandingsState where
  status : FetchStatus
  teams : List Team
deriving DecidableEq, Repr

/-- The `fetchFromDb` continuation (Standings.tsx lines 237-246): the body
is read without consulting `r.ok`; on success the sorted teams replace the
slot. -/
def fetchFromDbComplete (o : FetchOutcome StandingsResponse)
    (s : StandingsState) : StandingsState :=
  match o with
  | .networkError => { s with status := .error }
  | .response _statusOk body =>
    match body with
    | none => { s with status := .error }
    | some data =>
      { status := .ok, teams := sortStandings (data.teams.getD []) }

/-! ## The event-driven system

`Sys` couples the controller state with the multiset of in-flight requests
per resource and the pending debounce timer.  Each transition below is the
exact sequence of setter calls of one source event handler (or of one
resolved network callback); `Step` then interleaves them freely, as the
single-threaded event loop does. -/

structure Sys where
  app : AppState
  leadersReqs : List LeadersReq
  searchReqs : List SearchReq
  jumpReqs : List JumpReq
  lastNReqs : List LastNReq
  debounceTimer : Option String
deriving DecidableEq, Repr

/-- `setPlayerQuery(x)`: when the value actually changes, the
`useEffect [playerQuery]` debounce (App.tsx lines 890-893) clears the old
timer and schedules `fetchPlayerSearch(x)` one debounce interval later. -/
def setPlayerQuerySys (x : String) (s : Sys) : Sys :=
  if s.app.playerQuery = x then s
  else { s with app := { s.app with playerQuery := x }, debounceTimer := some x }

/-- A keystroke in the search input: `onChange` calls `setPlayerQuery`. -/
def keystrokeSys (q : String) (s : Sys) : Sys :=
  setPlayerQuerySys q s

/-- The debounce timer fires: run `fetchPlayerSearch` on the recorded query,
issuing the request (if any) and consuming the timer. -/
def debounceFireSys (q : String) (s : Sys) : Sys :=
  let (a, req) := fetchPlayerSearchStart q s.app
  { s with app := a, searchReqs := s.searchReqs ++ req.toList, debounceTimer := none }

/-- A typeahead search response resolves (in any order). -/
def searchRespondSys (req : SearchReq) (o : FetchOutcome PlayerSearchResponse)
    (s : Sys) : Sys :=
  { s with app := fetchPlayerSearchComplete o s.app, searchReqs := s.searchReqs.erase req }

/-- A game-log response resolves (in any order). -/
def lastNRespondSys (req : LastNReq) (o : FetchOutcome PlayerLastNResponse)
    (s : Sys) : Sys :=
  { s with app := fetchPlayerLastNComplete o s.app, lastNReqs := s.lastNReqs.erase req }

/-- A leaderboard response resolves (in any order). -/
def leadersRespondSys (req : LeadersReq) (o : FetchOutcome LeadersResponse)
    (s : Sys) : Sys :=
  { s with app := fetchLeadersComplete req o s.app, leadersReqs := s.leadersReqs.erase req }

/-- Clicking a search-result card (App.tsx lines 1094-1100): select the
player, clear query and results, fetch the default game-log window. -/
def selectPlayerSys (p : PlayerHit) (s : Sys) : Sys :=
  let s1 := { s with app := { s.app with selectedPlayer := some p, showAllGames := false } }
  let s2 := setPlayerQuerySys "" s1
  let s3 := { s2 with app := { s2.app with playerResults := [] } }
  { s3 with app := { s3.app with playerStatsStatus := .loading },
            lastNReqs := s3.lastNReqs ++ [{ playerId := p.nba_player_id, n := DEFAULT_LAST_N }] }

/-- The Clear button (App.tsx lines 1073-1079): reset the whole selection. -/
def clearSelectionSys (s : Sys) : Sys :=
  let a1 := { s.app with selectedPlayer := none, playerStats := none, showAllGames := false }
  let s1 := { s with app := a1 }
  let s2 := setPlayerQuerySys "" s1
  { s2 with app := { s2.app with playerResults := [] } }

/-- The Show All Games / Show Last 10 toggle (App.tsx lines 1061-1064). -/
def toggleShowAllSys (p : PlayerHit) (s : Sys) : Sys :=
  let next := !s.app.showAllGames
  { s with app := { s.app with showAllGames := next, playerStatsStatus := .loading },
           lastNReqs := s.lastNReqs ++
             [{ playerId := p.nba_player_id, n := if next then ALL_GAMES_N else DEFAULT_LAST_N }] }

/-- The synchronous part of `jumpToPlayerFromLeader` (App.tsx lines
836-849): animated navigation, stale selection cleared, query pre-filled
with the leader's name, the scoped search issued. -/
def jumpStartSys (pid : Int) (name : String) (s : Sys) : Sys :=
  let s1 := { s with app := requestTabChange .player s.app }
  let a2 := { s1.app with selectedPlayer := none, playerStats := none, showAllGames := false }
  let s2 := { s1 with app := a2 }
  let s3 := setPlayerQuerySys name s2
  { s3 with app := { s3.app with playerSearchStatus := .loading },
            jumpReqs := s3.jumpReqs ++ [{ playerId := pid, q := name, limit := 5 }] }

/-- The `jumpToPlayerFromLeader` continuation (App.tsx lines 850-866): scan
the results for an exact id match; only on a match commit the selection and
fetch the game log; either way finish with status `ok` (no error surfaced
for a missing match). -/
def jumpRespondSys (req : JumpReq) (o : FetchOutcome PlayerSearchResponse)
    (s : Sys) : Sys :=
  let s0 := { s with jumpReqs := s.jumpReqs.erase req }
  match o with
  | .networkError => { s0 with app := { s0.app with playerSearchStatus := .error } }
  | .response _statusOk body =>
    match body with
    | none => { s0 with app := { s0.app with playerSearchStatus := .error } }
    | some data =>
      match (data.players.getD []).find? (fun p => p.nba_player_id == req.playerId) with
      | some exact =>
        let s1 := { s0 with app := { s0.app with selectedPlayer := some exact } }
        let s2 := setPlayerQuerySys "" s1
        let s3 := { s2 with app := { s2.app with playerResults := [] } }
        let s4 := { s3 with app := { s3.app with playerStatsStatus := .loading } }
        let s5 := { s4 with lastNReqs := s4.lastNReqs ++ [LastNReq.mk exact.nba_player_id DEFAULT_LAST_N] }
        { s5 with app := { s5.app with playerSearchStatus := .ok } }
      | none => { s0 with app := { s0.app with playerSearchStatus := .ok } }

/-- Changing the leaderboard sub-tab.  `setLeaderTab(t)` re-renders; in that
commit the reset effect (lines 715-718) schedules `limit := 10` and
`canLoadMore := true`, but the fetch effect (lines 880-883) reads the same
render's `leadersEndpoint` memo, so its fetch carries the pre-reset limit.
The scheduled reset then lands, and exactly when the limit actually changed
(old limit not 10) the fetch effect re-runs in the next commit, now at the
base page size. -/
def changeCategorySys (t : LeaderTab) (s : Sys) : Sys :=
  if t = s.app.leaderTab then s
  else
    let a1 := { s.app with leaderTab := t }
    let (a2, req1) := if a1.tab = AppTab.leaders then fetchLeadersStart a1 else (a1, none)
    let a3 := leaderTabResetEffect a2
    let (a4, req2) :=
      if a3.tab = AppTab.leaders ∧ a1.leadersLimit ≠ 10 then fetchLeadersStart a3
      else (a3, none)
    { s with app := a4, leadersReqs := s.leadersReqs ++ req1.toList ++ req2.toList }

/-- The Load more button (App.tsx line 1354): `setLeadersLimit(x => x + 10)`
re-renders and the fetch effect runs. -/
def loadMoreSys (s : Sys) : Sys :=
  let mid := { s.app with leadersLimit := s.app.leadersLimit + 10 }
  let (a, req) := if mid.tab = AppTab.leaders then fetchLeadersStart mid else (mid, none)
  { s with app := a, leadersReqs := s.leadersReqs ++ req.toList }

/-- The swap timer fires.  When the tab actually changes, the effects on
`[tab]` run in that commit: the leaders re-entry reset (lines 724-729)
schedules its updates, and the fetch effect (lines 880-883) fires with the
same render's `leadersEndpoint` memo — the pre-reset limit.  The reset then
lands, and exactly when it changed the limit (re-entering Leaders with old
limit not 10) the fetch effect re-runs in the next commit at the base page
size. -/
def swapFireSys (s : Sys) : Sys :=
  let a1 := tabSwapFire s.app
  if a1.tab = s.app.tab then { s with app := a1 }
  else
    let (a2, req1) := if a1.tab = AppTab.leaders then fetchLeadersStart a1 else (a1, none)
    let a3 := tabEnterResetEffect a2
    let (a4, req2) :=
      if a3.tab = AppTab.leaders ∧ a1.leadersLimit ≠ 10 then fetchLeadersStart a3
      else (a3, none)
    { s with app := a4, leadersReqs := s.leadersReqs ++ req1.toList ++ req2.toList }

/-- The unlock timer fires. -/
def unlockFireSys (s : Sys) : Sys :=
  { s with app := tabUnlockFire s.app }

/-- A top-level tab trigger is clicked. -/
def requestTabSys (t : AppTab) (s : Sys) : Sys :=
  { s with app := requestTabChange t s.app }

/-- The state of `App` right after mount: the initial `useState` values,
with the mount effects applied — the initial leaders fetch (lines 871-874)
and the debounce effect's first run scheduling `fetchPlayerSearch("")`. -/
def initialApp : AppState :=
  { tab := .home, isTabTransitioning := false, pendingTab := none,
    leaderTab := .threePt, leadersStatus := .idle, leaders := [],
    leadersLimit := 10, canLoadMore := true,
    playerQuery := "", playerSearchStatus := .idle, playerResults := [],
    selectedPlayer := none, playerStatsStatus := .idle, playerStats := none,
    showAllGames := false }

def initSys : Sys :=
  let (a, req) := fetchLeadersStart initialApp
  { app := a, leadersReqs := req.toList, searchReqs := [], jumpReqs := [],
    lastNReqs := [], debounceTimer := some "" }

/-- One interleaving step of the event loop: a user event permitted by what
the UI currently renders, a timer firing, or any in-flight network request
resolving with an arbitrary outcome. -/
inductive Step : Sys → Sys → Prop where
  | requestTab (t : AppTab) (s : Sys) :
      Step s (requestTabSys t s)
  | swapFire (s : Sys) (h : s.app.isTabTransitioning = true) :
      Step s (swapFireSys s)
  | unlockFire (s : Sys) (h : s.app.isTabTransitioning = true) :
      Step s (unlockFireSys s)
  | changeCategory (t : LeaderTab) (s : Sys) (h : s.app.tab = .leaders) :
      Step s (changeCategorySys t s)
  | loadMore (s : Sys) (h1 : s.app.tab = .leaders) (h2 : s.app.leadersStatus = .ok)
      (h3 : s.app.canLoadMore = true) :
      Step s (loadMoreSys s)
  | leadersRespond (req : LeadersReq) (o : FetchOutcome LeadersResponse) (s : Sys)
      (h : req ∈ s.leadersReqs) :
      Step s (leadersRespondSys req o s)
  | keystroke (q : String) (s : Sys) (h : s.app.tab = .player) :
      Step s (keystrokeSys q s)
  | debounceFire (q : String) (s : Sys) (h : s.debounceTimer = some q) :
      Step s (debounceFireSys q s)
  | searchRespond (req : SearchReq) (o : FetchOutcome PlayerSearchResponse) (s : Sys)
      (h : req ∈ s.searchReqs) :
      Step s (searchRespondSys req o s)
  | selectPlayer (p : PlayerHit) (s : Sys) (h1 : s.app.tab = .player)
      (h2 : p ∈ s.app.playerResults) :
      Step s (selectPlayerSys p s)
  | clearSelection (p : PlayerHit) (s : Sys) (h1 : s.app.tab = .player)
      (h2 : s.app.selectedPlayer = some p) :
      Step s (clearSelectionSys s)
  | toggleShowAll (p : PlayerHit) (s : Sys) (h1 : s.app.tab = .player)
      (h2 : s.app.selectedPlayer = some p) :
      Step s (toggleShowAllSys p s)
  | jumpStart (L : Leader) (s : Sys) (h1 : s.app.tab = .leaders)
      (h2 : L ∈ s.app.leaders) (h3 : s.app.leadersStatus ≠ .loading) :
      Step s (jumpStartSys L.player_id L.player_name s)
  | jumpRespond (req : JumpReq) (o : FetchOutcome PlayerSearchResponse) (s : Sys)
      (h : req ∈ s.jumpReqs) :
      Step s (jumpRespondSys req o s)
  | lastNRespond (req : LastNReq) (o : FetchOutcome PlayerLastNResponse) (s : Sys)
      (h : req ∈ s.lastNReqs) :
      Step s (lastNRespondSys req o s)

/-- States reachable from the mounted application. -/
inductive Reachable : Sys → Prop where
  | init : Reachable initSys
  | step {s t : Sys} : Reachable s → Step s t → Reachable t

/-- The §3 invariant under scrutiny: committed stats always belong to the
currently selected player. -/
def statsMatchSelected (a : AppState) : Prop :=
  ∀ d, a.playerStats = some d →
    ∃ p, a.selectedPlayer = some p ∧ p.nba_player_id = d.nba_player_id

/-! ## Concrete data: a race between two game-log requests

Leaderboard rows for two players, the search hits the backend returns for
their names, and a game-log response for the first player. -/

def leaderAlpha : Leader :=
  { player_id := 1, player_name := "Alpha", team_abbreviation := "AAA",
    fg3_pct := none, fg3m := none, fg3a := none, fg_pct := none, fgm := none,
    fga := none, value := none, gp := 12 }

def leaderBeta : Leader :=
  { player_id := 2, player_name := "Beta", team_abbreviation := "BBB",
    fg3_pct := none, fg3m := none, fg3a := none, fg_pct := none, fgm := none,
    fga := none, value := none, gp := 11 }

def hitAlpha : PlayerHit := { nba_player_id := 1, full_name := "Alpha", nba_team_id := none }

def hitBeta : PlayerHit := { nba_player_id := 2, full_name := "Beta", nba_team_id := none }

def leadersBody : LeadersResponse :=
  { season := "2025-26", min_3pa := some 50, min_fga := none, min_gp := 10,
    limit := 10, count := 2, leaders := some [leaderAlpha, leaderBeta],
    generated_at := "", source := "warehouse" }

def searchBodyAlpha : PlayerSearchResponse :=
  { query := "Alpha", count := 1, players := some [hitAlpha] }

def searchBodyBeta : PlayerSearchResponse :=
  { query := "Beta", count := 1, players := some [hitBeta] }

def emptyAverages : PlayerAverages :=
  { pts := none, reb := none, ast := none, stl := none, blk := none, tov := none,
    min := none, fg_pct := none, fg3_pct := none, ft_pct := none }

def statsAlpha : PlayerLastNResponse :=
  { nba_player_id := 1, n := 10, count := 0, averages := emptyAverages,
    games := [], source := "warehouse" }

def req3pt : LeadersReq := leadersEndpoint .threePt 10

/-- The interleaving: load the leaderboard, open the Leaders page, deep-link
to Alpha, then (while Alpha's game-log request is still in flight) search for
and select Beta; finally Alpha's slow game-log response arrives. -/
def trace1 : Sys := leadersRespondSys req3pt (.response true (some leadersBody)) initSys

def trace2 : Sys := requestTabSys .leaders trace1

def trace3 : Sys := swapFireSys trace2

def trace4 : Sys := unlockFireSys trace3

def trace5 : Sys := leadersRespondSys req3pt (.response true (some leadersBody)) trace4

def trace6 : Sys := jumpStartSys leaderAlpha.player_id leaderAlpha.player_name trace5

def trace7 : Sys := jumpRespondSys (JumpReq.mk 1 "Alpha" 5) (.response true (some searchBodyAlpha)) trace6

def trace8 : Sys := swapFireSys trace7

def trace9 : Sys := unlockFireSys trace8

def trace10 : Sys := keystrokeSys "Beta" trace9

def trace11 : Sys := debounceFireSys "Beta" trace10

def trace12 : Sys := searchRespondSys (SearchReq.mk "Beta" 10) (.response true (some searchBodyBeta)) trace11

def trace13 : Sys := selectPlayerSys hitBeta trace12

def trace14 : Sys := lastNRespondSys (LastNReq.mk 1 10) (.response true (some statsAlpha)) trace13

/-! ## Projection lemmas for the player-query setter -/

theorem setPlayerQuerySys_selectedPlayer (x : String) (s : Sys) :
    (setPlayerQuerySys x s).app.selectedPlayer = s.app.selectedPlayer := by
  unfold setPlayerQuerySys; split <;> rfl

theorem setPlayerQuerySys_playerStats (x : String) (s : Sys) :
    (setPlayerQuerySys x s).app.playerStats = s.app.playerStats := by
  unfold setPlayerQuerySys; split <;> rfl

theorem setPlayerQuerySys_playerResults (x : String) (s : Sys) :
    (setPlayerQuerySys x s).app.playerResults = s.app.playerResults := by
  unfold setPlayerQuerySys; split <;> rfl

theorem setPlayerQuerySys_lastNReqs (x : String) (s : Sys) :
    (setPlayerQuerySys x s).lastNReqs = s.lastNReqs := by
  unfold setPlayerQuerySys; split <;> rfl

theorem setPlayerQuerySys_jumpReqs (x : String) (s : Sys) :
    (setPlayerQuerySys x s).jumpReqs = s.jumpReqs := by
  unfold setPlayerQuerySys; split <;> rfl

theorem jumpStartSys_selectedPlayer (pid : Int) (name : String) (s : Sys) :
    (jumpStartSys pid name s).app.selectedPlayer = none := by
  unfold jumpStartSys
  simp [setPlayerQuerySys_selectedPlayer]

theorem jumpStartSys_lastNReqs (pid : Int) (name : String) (s : Sys) :
    (jumpStartSys pid name s).lastNReqs = s.lastNReqs := by
  unfold jumpStartSys
  simp [setPlayerQuerySys_lastNReqs]

/-- C1: the spec asserts that stats state is never populated for a player
other than the currently selected one (a game-log response being committed
only if still for the selected player).  The code's `fetchPlayerLastN`
continuation commits unconditionally, so a slow game-log response for a
previously selected player overwrites the state after a different player has
been selected: the invariant fails on a reachable state. -/
theorem stale_game_log_overwrites_newer_selection :
    ¬ (∀ s : Sys, Reachable s → statsMatchSelected s.app) := by
  intro h
  have r1 : Reachable trace1 :=
    Reachable.step Reachable.init
      (Step.leadersRespond req3pt (.response true (some leadersBody)) initSys (by decide))
  have r2 : Reachable trace2 := Reachable.step r1 (Step.requestTab .leaders trace1)
  have r3 : Reachable trace3 := Reachable.step r2 (Step.swapFire trace2 (by decide))
  have r4 : Reachable trace4 := Reachable.step r3 (Step.unlockFire trace3 (by decide))
  have r5 : Reachable trace5 :=
    Reachable.step r4
      (Step.leadersRespond req3pt (.response true (some leadersBody)) trace4 (by decide))
  have r6 : Reachable trace6 :=
    Reachable.step r5 (Step.jumpStart leaderAlpha trace5 (by decide) (by decide) (by decide))
  have r7 : Reachable trace7 :=
    Reachable.step r6
      (Step.jumpRespond (JumpReq.mk 1 "Alpha" 5) (.response true (some searchBodyAlpha)) trace6
        (by decide))
  have r8 : Reachable trace8 := Reachable.step r7 (Step.swapFire trace7 (by decide))
  have r9 : Reachable trace9 := Reachable.step r8 (Step.unlockFire trace8 (by decide))
  have r10 : Reachable trace10 := Reachable.step r9 (Step.keystroke "Beta" trace9 (by decide))
  have r11 : Reachable trace11 := Reachable.step r10 (Step.debounceFire "Beta" trace10 (by decide))
  have r12 : Reachable trace12 :=
    Reachable.step r11
      (Step.searchRespond (SearchReq.mk "Beta" 10) (.response true (some searchBodyBeta)) trace11
        (by decide))
  have r13 : Reachable trace13 :=
    Reachable.step r12 (Step.selectPlayer hitBeta trace12 (by decide) (by decide))
  have r14 : Reachable trace14 :=
    Reachable.step r13
      (Step.lastNRespond (LastNReq.mk 1 10) (.response true (some statsAlpha)) trace13 (by decide))
  obtain ⟨p, hp, hid⟩ := h trace14 r14 statsAlpha (by decide)
  have hsel : trace14.app.selectedPlayer = some hitBeta := by decide
  rw [hsel] at hp
  injection hp with hp
  rw [← hp] at hid
  exact absurd hid (by decide)

/-- A non-2xx response body that still parses: FastAPI returns a JSON error
object, in which the expected fields are absent. -/
def searchBody404 : PlayerSearchResponse :=
  { query := "x", count := 0, players := none }

def standingsBody404 : StandingsResponse :=
  { season := "2025-26", generated_at := none, count := 0, teams := none, source := "db" }

def standingsIdle : StandingsState := { status := .idle, teams := [] }

/-- C2: the spec collapses every failure — non-2xx status, network error or
parse exception — into `Error`, and in particular says a non-2xx response is
never committed as `Ok`.  Only `fetchLeaders` checks `r.ok`; the search,
game-log and standings continuations read `r.json()` directly, so a non-2xx
response whose body parses is committed with status `Ok`. -/
theorem non_2xx_response_committed_as_ok :
    (fetchPlayerSearchComplete (.response false (some searchBody404)) initialApp).playerSearchStatus
        = .ok
    ∧ (fetchPlayerLastNComplete (.response false (some statsAlpha)) initialApp).playerStatsStatus
        = .ok
    ∧ (fetchFromDbComplete (.response false (some standingsBody404)) standingsIdle).status = .ok
    ∧ (fetchLeadersComplete req3pt (.response false (some leadersBody)) initialApp).leadersStatus
        = .error := by
  exact ⟨by decide, by decide, by decide, by decide⟩

/-- C3: the deep link from a leaderboard row for player id `P` re-issues a
scoped search and scans the results for an exact id match: it either commits
a selection whose id equals `P` and fetches that player's game log, or
commits no selection and issues no game-log fetch; and when a parsed
response holds no exact match, the final status is `ok`, not an error. -/
theorem deep_link_commits_only_exact_match (pid : Int) (name : String)
    (o : FetchOutcome PlayerSearchResponse) (s : Sys) :
    (((jumpRespondSys (JumpReq.mk pid name 5) o (jumpStartSys pid name s)).app.selectedPlayer = none
        ∧ (jumpRespondSys (JumpReq.mk pid name 5) o (jumpStartSys pid name s)).lastNReqs
            = s.lastNReqs)
      ∨ (∃ p, (jumpRespondSys (JumpReq.mk pid name 5) o (jumpStartSys pid name s)).app.selectedPlayer
            = some p
          ∧ p.nba_player_id = pid
          ∧ (jumpRespondSys (JumpReq.mk pid name 5) o (jumpStartSys pid name s)).lastNReqs
              = s.lastNReqs ++ [LastNReq.mk pid DEFAULT_LAST_N]))
    ∧ (∀ (b : Bool) (data : PlayerSearchResponse),
        o = .response b (some data) →
        (data.players.getD []).find? (fun p => p.nba_player_id == pid) = none →
        (jumpRespondSys (JumpReq.mk pid name 5) o (jumpStartSys pid name s)).app.playerSearchStatus
          = .ok) := by
  have hsel := jumpStartSys_selectedPlayer pid name s
  have hreq := jumpStartSys_lastNReqs pid name s
  cases o with
  | networkError =>
    refine ⟨Or.inl ⟨?_, ?_⟩, ?_⟩
    · simpa [jumpRespondSys] using hsel
    · simpa [jumpRespondSys] using hreq
    · intro b data hb
      exact absurd hb (by intro hb; cases hb)
  | response ok body =>
    cases body with
    | none =>
      refine ⟨Or.inl ⟨?_, ?_⟩, ?_⟩
      · simpa [jumpRespondSys] using hsel
      · simpa [jumpRespondSys] using hreq
      · intro b data hb
        exact absurd hb (by intro hb; cases hb)
    | some data =>
      cases hfind : (data.players.getD []).find? (fun p => p.nba_player_id == pid) with
      | none =>
        refine ⟨Or.inl ⟨?_, ?_⟩, ?_⟩
        · simpa [jumpRespondSys, hfind] using hsel
        · simpa [jumpRespondSys, hfind] using hreq
        · intro b d hb hfind2
          simp [jumpRespondSys, hfind]
      | some exact_ =>
        have hbeq : (exact_.nba_player_id == pid) = true :=
          @List.find?_some PlayerHit (fun p => p.nba_player_id == pid) exact_
            (data.players.getD []) hfind
        have hpe : exact_.nba_player_id = pid := by exact_mod_cast eq_of_beq hbeq
        refine ⟨Or.inr ⟨exact_, ?_, hpe, ?_⟩, ?_⟩
        · simp [jumpRespondSys, hfind, setPlayerQuerySys_selectedPlayer]
        · rw [jumpRespondSys]
          simp only [hfind]
          simp [setPlayerQuerySys_lastNReqs, hreq, hpe]
        · intro b d hb hfind2
          cases hb
          rw [hfind2] at hfind
          cases hfind

theorem deep_link_commits_only_exact_match_witness :
    (jumpRespondSys (JumpReq.mk 3 "Gamma" 5) (.response true (some searchBodyBeta))
        (jumpStartSys 3 "Gamma" initSys)).app.playerSearchStatus = .ok :=
  (deep_link_commits_only_exact_match 3 "Gamma" (.response true (some searchBodyBeta)) initSys).2
    true searchBodyBeta rfl (by decide)

/-- Ten returned leaderboard rows, as in the spec's end-to-end scenario. -/
def rowsTen : List Leader := List.replicate 10 leaderAlpha

/-- Seven returned leaderboard rows. -/
def rowsSeven : List Leader := List.replicate 7 leaderBeta

def ptsBodyTen : LeadersResponse :=
  { season := "2025-26", min_3pa := none, min_fga := none, min_gp := 10,
    limit := 10, count := 10, leaders := some rowsTen, generated_at := "", source := "" }

def ptsBodySeven : LeadersResponse :=
  { season := "2025-26", min_3pa := none, min_fga := none, min_gp := 10,
    limit := 20, count := 7, leaders := some rowsSeven, generated_at := "", source := "" }

/-- The leaders state after the first scenario fetch committed. -/
def appAfterTen : AppState :=
  fetchLeadersComplete (leadersEndpoint .pts 10) (.response true (some ptsBodyTen)) initialApp

/-- C4: a successful leaders fetch fully replaces the committed list —
whatever was committed before — and recomputes the more-available flag as
(returned count ≥ requested limit); concretely, 10 rows at limit 10 leave it
true and 7 rows at limit 20 leave it false. -/
theorem leaders_success_replaces_list_and_recomputes_flag :
    (∀ (req : LeadersReq) (data : LeadersResponse) (a : AppState),
        (fetchLeadersComplete req (.response true (some data)) a).leaders = data.leaders.getD []
        ∧ (fetchLeadersComplete req (.response true (some data)) a).leadersStatus = .ok
        ∧ ((fetchLeadersComplete req (.response true (some data)) a).canLoadMore = true
            ↔ req.limit ≤ (data.leaders.getD []).length))
    ∧ appAfterTen.canLoadMore = true
    ∧ (fetchLeadersComplete (leadersEndpoint .pts 20) (.response true (some ptsBodySeven))
          appAfterTen).canLoadMore = false := by
  refine ⟨fun req data a => ⟨rfl, rfl, ?_⟩, by decide, by decide⟩
  simp [fetchLeadersComplete]

/-- C5: a failed leaders fetch — network error, non-2xx status, or a body
that fails to parse — sets the status to `Error` and leaves the committed
list, the limit and the more-available flag untouched. -/
theorem leaders_failure_preserves_prior_results (req : LeadersReq) (a : AppState)
    (o : FetchOutcome LeadersResponse)
    (h : ∀ data : LeadersResponse, o ≠ .response true (some data)) :
    (fetchLeadersComplete req o a).leadersStatus = .error
    ∧ (fetchLeadersComplete req o a).leaders = a.leaders
    ∧ (fetchLeadersComplete req o a).leadersLimit = a.leadersLimit
    ∧ (fetchLeadersComplete req o a).canLoadMore = a.canLoadMore := by
  cases o with
  | networkError => exact ⟨rfl, rfl, rfl, rfl⟩
  | response ok body =>
    cases ok with
    | false => exact ⟨rfl, rfl, rfl, rfl⟩
    | true =>
      cases body with
      | none => exact ⟨rfl, rfl, rfl, rfl⟩
      | some data => exact absurd rfl (h data)

theorem leaders_failure_preserves_prior_results_witness :
    (∀ data : LeadersResponse,
        (FetchOutcome.networkError : FetchOutcome LeadersResponse) ≠ .response true (some data))
    ∧ ((fetchLeadersComplete req3pt .networkError appAfterTen).leadersStatus = .error
        ∧ (fetchLeadersComplete req3pt .networkError appAfterTen).leaders = appAfterTen.leaders
        ∧ (fetchLeadersComplete req3pt .networkError appAfterTen).leadersLimit
            = appAfterTen.leadersLimit
        ∧ (fetchLeadersComplete req3pt .networkError appAfterTen).canLoadMore
            = appAfterTen.canLoadMore) :=
  ⟨fun _ h => FetchOutcome.noConfusion h,
   leaders_failure_preserves_prior_results req3pt appAfterTen .networkError
     (fun _ h => FetchOutcome.noConfusion h)⟩

/-- A player page with a committed query and results and no pending timer. -/
def searchOkApp : AppState :=
  { initialApp with tab := .player, playerQuery := "cur",
                    playerSearchStatus := .ok, playerResults := [hitAlpha] }

def searchOkSys : Sys :=
  { app := searchOkApp, leadersReqs := [], searchReqs := [], jumpReqs := [],
    lastNReqs := [], debounceTimer := none }

/-- C7 counterexample: clearing the query to the empty string does not clear
the results or reset the status at the keystroke itself — the claim's
"immediately" fails; the reset only happens when the debounce timer fires. -/
theorem empty_query_is_not_cleared_immediately :
    (keystrokeSys "" searchOkSys).app.playerResults ≠ []
    ∧ (keystrokeSys "" searchOkSys).app.playerSearchStatus ≠ .idle := by
  exact ⟨by decide, by decide⟩

/-- C7 (amended): for a query whose trimmed text is empty, the keystroke only
re-arms the debounce timer, leaving results and status untouched; when the
debounce fires, no search request is issued and the slot is reset — status
`Idle`, results cleared. -/
theorem empty_query_skips_request_and_clears_on_debounce (q : String) (s : Sys)
    (hq : jsTrim q = "") (hne : s.app.playerQuery ≠ q) :
    (keystrokeSys q s).debounceTimer = some q
    ∧ (keystrokeSys q s).app.playerResults = s.app.playerResults
    ∧ (keystrokeSys q s).app.playerSearchStatus = s.app.playerSearchStatus
    ∧ (debounceFireSys q (keystrokeSys q s)).app.playerResults = []
    ∧ (debounceFireSys q (keystrokeSys q s)).app.playerSearchStatus = .idle
    ∧ (debounceFireSys q (keystrokeSys q s)).searchReqs = s.searchReqs
    ∧ (debounceFireSys q (keystrokeSys q s)).debounceTimer = none := by
  have hk : keystrokeSys q s
      = { s with app := { s.app with playerQuery := q }, debounceTimer := some q } := by
    rw [keystrokeSys, setPlayerQuerySys, if_neg hne]
  rw [hk]
  refine ⟨rfl, rfl, rfl, ?_, ?_, ?_, rfl⟩ <;>
    simp [debounceFireSys, fetchPlayerSearchStart, hq]

theorem empty_query_skips_request_and_clears_on_debounce_witness :
    jsTrim "  " = "" ∧ searchOkSys.app.playerQuery ≠ "  "
    ∧ ((keystrokeSys "  " searchOkSys).debounceTimer = some "  "
        ∧ (keystrokeSys "  " searchOkSys).app.playerResults = searchOkSys.app.playerResults
        ∧ (keystrokeSys "  " searchOkSys).app.playerSearchStatus
            = searchOkSys.app.playerSearchStatus
        ∧ (debounceFireSys "  " (keystrokeSys "  " searchOkSys)).app.playerResults = []
        ∧ (debounceFireSys "  " (keystrokeSys "  " searchOkSys)).app.playerSearchStatus = .idle
        ∧ (debounceFireSys "  " (keystrokeSys "  " searchOkSys)).searchReqs
            = searchOkSys.searchReqs
        ∧ (debounceFireSys "  " (keystrokeSys "  " searchOkSys)).debounceTimer = none) :=
  ⟨by decide, by decide,
   empty_query_skips_request_and_clears_on_debounce "  " searchOkSys (by decide) (by decide)⟩

/-- C8: `requestTabChange` is a no-op when the target equals the active tab
or while a transition is in flight; hence two quick invocations commit
exactly one swap, to the first target. -/
theorem tab_change_noop_and_first_target_wins :
    (∀ (a : AppState) (n : AppTab),
        (n = a.tab ∨ a.isTabTransitioning = true) → requestTabChange n a = a)
    ∧ (∀ (a : AppState) (n1 n2 : AppTab),
        a.isTabTransitioning = false → n1 ≠ a.tab →
        requestTabChange n2 (requestTabChange n1 a) = requestTabChange n1 a
        ∧ (tabSwapFire (requestTabChange n1 a)).tab = n1) := by
  constructor
  · intro a n h
    rcases h with h | h
    · simp [requestTabChange, h]
    · by_cases hn : n = a.tab
      · simp [requestTabChange, hn]
      · simp [requestTabChange, hn, h]
  · intro a n1 n2 hidle hne
    have h1 : requestTabChange n1 a
        = { a with pendingTab := some n1, isTabTransitioning := true } := by
      simp [requestTabChange, hne, hidle]
    constructor
    · by_cases hn2 : n2 = (requestTabChange n1 a).tab
      · simp [requestTabChange, hn2]
      · rw [h1] at hn2 ⊢
        simp [requestTabChange, hn2]
    · rw [h1]
      simp [tabSwapFire]

theorem tab_change_noop_and_first_target_wins_witness :
    initialApp.isTabTransitioning = false ∧ AppTab.player ≠ initialApp.tab
    ∧ (requestTabChange .standings (requestTabChange .player initialApp)
          = requestTabChange .player initialApp
        ∧ (tabSwapFire (requestTabChange .player initialApp)).tab = .player) :=
  ⟨rfl, by decide,
   tab_change_noop_and_first_target_wins.2 initialApp .player .standings rfl (by decide)⟩


/-! ## Order facts for the standings comparator -/

theorem standingsLE_iff (a b : Team) :
    standingsLE a b ↔
      teamConfKey a < teamConfKey b
      ∨ (teamConfKey a = teamConfKey b
          ∧ (teamRankKey a < teamRankKey b
              ∨ (teamRankKey a = teamRankKey b ∧ teamPctKey b ≤ teamPctKey a))) := by
  unfold standingsLE standingsCmp
  split_ifs with h1 h2 h3 h4 h5 h6
  · simp [h2]
  · simp [h1, h2]
  · push_neg at h1
    simp [h1, h4]
  · push_neg at h1
    simp [h1, h3, h4]
  · push_neg at h1 h3
    simp [h1, h3, le_of_lt h5]
  · push_neg at h1 h3
    have h7 : ¬ teamPctKey b ≤ teamPctKey a := not_le.mpr h6
    simp [h1, h3, h7]
  · push_neg at h1 h3
    simp [h1, h3, le_of_not_lt h6]

instance : IsTotal Team standingsLE := ⟨by
  intro a b
  rw [standingsLE_iff, standingsLE_iff]
  rcases lt_trichotomy (teamConfKey a) (teamConfKey b) with hc | hc | hc
  · exact Or.inl (Or.inl hc)
  · rcases lt_trichotomy (teamRankKey a) (teamRankKey b) with hr | hr | hr
    · exact Or.inl (Or.inr ⟨hc, Or.inl hr⟩)
    · rcases le_total (teamPctKey b) (teamPctKey a) with hw | hw
      · exact Or.inl (Or.inr ⟨hc, Or.inr ⟨hr, hw⟩⟩)
      · exact Or.inr (Or.inr ⟨hc.symm, Or.inr ⟨hr.symm, hw⟩⟩)
    · exact Or.inr (Or.inr ⟨hc.symm, Or.inl hr⟩)
  · exact Or.inr (Or.inl hc)⟩

instance : IsTrans Team standingsLE := ⟨by
  intro a b c hab hbc
  rw [standingsLE_iff] at hab hbc ⊢
  rcases hab with hab | ⟨hce, hab⟩
  · rcases hbc with hbc | ⟨hce2, _⟩
    · exact Or.inl (hab.trans hbc)
    · exact Or.inl (by rw [← hce2]; exact hab)
  · rcases hbc with hbc | ⟨hce2, hbc⟩
    · exact Or.inl (by rw [hce]; exact hbc)
    · refine Or.inr ⟨hce.trans hce2, ?_⟩
      rcases hab with hr | ⟨hre, hw⟩
      · rcases hbc with hr2 | ⟨hre2, _⟩
        · exact Or.inl (hr.trans hr2)
        · exact Or.inl (by rw [← hre2]; exact hr)
      · rcases hbc with hr2 | ⟨hre2, hw2⟩
        · exact Or.inl (by rw [hre]; exact hr2)
        · exact Or.inr ⟨hre.trans hre2, hw2.trans hw⟩⟩

theorem length_filter_split {α : Type} (p : α → Bool) (l : List α) :
    (l.filter p).length + (l.filter (fun x => !(p x))).length = l.length := by
  induction l with
  | nil => rfl
  | cons a l ih =>
    cases h : p a <;> simp [List.filter_cons, h] <;> omega

theorem mem_eastOf {t : Team} {l : List Team} :
    t ∈ eastOf l ↔ t ∈ l ∧ jsIncludes (jsToLower (t.conference.getD "")) "east" = true := by
  unfold eastOf
  exact List.mem_filter

theorem mem_westOf {t : Team} {l : List Team} :
    t ∈ westOf l ↔ t ∈ l ∧ jsIncludes (jsToLower (t.conference.getD "")) "west" = true := by
  unfold westOf
  exact List.mem_filter

/-- The intra-conference order of the claim: ascending playoff rank with win
percentage descending as tie-break. -/
def rankPctLE (a b : Team) : Prop :=
  teamRankKey a < teamRankKey b
  ∨ (teamRankKey a = teamRankKey b ∧ teamPctKey b ≤ teamPctKey a)

/-- C9: with every conference label an (arbitrary-case) spelling of
"Eastern Conference" or "Western Conference", the standings derivation
places every fetched team in exactly one of the two conference lists, the
partition loses nothing, and each list is internally ordered by ascending
playoff rank with win percentage descending as tie-break. -/
theorem standings_partition_exactly_one_and_sorted (raw : List Team)
    (H : ∀ t ∈ raw, jsToLower (t.conference.getD "") = "eastern conference"
        ∨ jsToLower (t.conference.getD "") = "western conference") :
    (sortStandings raw).Perm raw
    ∧ (∀ t ∈ raw,
        (t ∈ eastOf (sortStandings raw) ∧ t ∉ westOf (sortStandings raw))
        ∨ (t ∈ westOf (sortStandings raw) ∧ t ∉ eastOf (sortStandings raw)))
    ∧ (eastOf (sortStandings raw)).length + (westOf (sortStandings raw)).length = raw.length
    ∧ List.Pairwise rankPctLE (eastOf (sortStandings raw))
    ∧ List.Pairwise rankPctLE (westOf (sortStandings raw)) := by
  have hperm : (sortStandings raw).Perm raw := List.perm_insertionSort standingsLE raw
  have Hs : ∀ t ∈ sortStandings raw,
      jsToLower (t.conference.getD "") = "eastern conference"
      ∨ jsToLower (t.conference.getD "") = "western conference" :=
    fun t ht => H t (hperm.mem_iff.mp ht)
  have hsorted : List.Pairwise standingsLE (sortStandings raw) :=
    List.sorted_insertionSort standingsLE raw
  have heastPW : List.Pairwise standingsLE (eastOf (sortStandings raw)) :=
    List.Pairwise.sublist (List.filter_sublist _) hsorted
  have hwestPW : List.Pairwise standingsLE (westOf (sortStandings raw)) :=
    List.Pairwise.sublist (List.filter_sublist _) hsorted
  have heastLab : ∀ x ∈ eastOf (sortStandings raw),
      jsToLower (x.conference.getD "") = "eastern conference" := by
    intro x hx
    obtain ⟨hxs, hpx⟩ := mem_eastOf.mp hx
    rcases Hs x hxs with hc | hc
    · exact hc
    · rw [hc] at hpx
      exact absurd hpx (by decide)
  have hwestLab : ∀ x ∈ westOf (sortStandings raw),
      jsToLower (x.conference.getD "") = "western conference" := by
    intro x hx
    obtain ⟨hxs, hpx⟩ := mem_westOf.mp hx
    rcases Hs x hxs with hc | hc
    · rw [hc] at hpx
      exact absurd hpx (by decide)
    · exact hc
  refine ⟨hperm, ?_, ?_, ?_, ?_⟩
  · intro t ht
    have hts : t ∈ sortStandings raw := hperm.mem_iff.mpr ht
    rcases H t ht with hconf | hconf
    · refine Or.inl ⟨mem_eastOf.mpr ⟨hts, by rw [hconf]; decide⟩, ?_⟩
      intro hw
      have := (mem_westOf.mp hw).2
      rw [hconf] at this
      exact absurd this (by decide)
    · refine Or.inr ⟨mem_westOf.mpr ⟨hts, by rw [hconf]; decide⟩, ?_⟩
      intro he
      have := (mem_eastOf.mp he).2
      rw [hconf] at this
      exact absurd this (by decide)
  · have hpw : ∀ x ∈ sortStandings raw,
        (jsIncludes (jsToLower (x.conference.getD "")) "west")
          = !(jsIncludes (jsToLower (x.conference.getD "")) "east") := by
      intro x hx
      rcases Hs x hx with hc | hc <;> rw [hc] <;> decide
    have hwesteq : westOf (sortStandings raw)
        = (sortStandings raw).filter
            (fun x => !(jsIncludes (jsToLower (x.conference.getD "")) "east")) := by
      unfold westOf
      exact List.filter_congr hpw
    rw [hwesteq]
    have := length_filter_split
      (fun x : Team => jsIncludes (jsToLower (x.conference.getD "")) "east")
      (sortStandings raw)
    unfold eastOf
    rw [this]
    exact hperm.length_eq
  · refine List.Pairwise.imp_of_mem ?_ heastPW
    intro a b ha hb hle
    have hconf : teamConfKey a = teamConfKey b := by
      unfold teamConfKey
      rw [heastLab a ha, heastLab b hb]
    rcases (standingsLE_iff a b).mp hle with h | ⟨_, h⟩
    · rw [hconf] at h
      exact absurd h (lt_irrefl _)
    · exact h
  · refine List.Pairwise.imp_of_mem ?_ hwestPW
    intro a b ha hb hle
    have hconf : teamConfKey a = teamConfKey b := by
      unfold teamConfKey
      rw [hwestLab a ha, hwestLab b hb]
    rcases (standingsLE_iff a b).mp hle with h | ⟨_, h⟩
    · rw [hconf] at h
      exact absurd h (lt_irrefl _)
    · exact h

def teamEastFirst : Team :=
  { team_id := some 1, team_name := some "Celtics", team_city := some "Boston",
    team_slug := none, conference := some "Eastern Conference", playoff_rank := some 1,
    wins := some 40, losses := some 10, win_pct := some 1, l10 := none, streak := none }

def teamEastSecond : Team :=
  { team_id := some 2, team_name := some "Knicks", team_city := some "New York",
    team_slug := none, conference := some "EASTERN CONFERENCE", playoff_rank := some 2,
    wins := some 35, losses := some 15, win_pct := some 0, l10 := none, streak := none }

def teamWestHighPct : Team :=
  { team_id := some 3, team_name := some "Thunder", team_city := some "Oklahoma City",
    team_slug := none, conference := some "Western Conference", playoff_rank := some 1,
    wins := some 41, losses := some 9, win_pct := some 1, l10 := none, streak := none }

def teamWestLowPct : Team :=
  { team_id := some 4, team_name := some "Nuggets", team_city := some "Denver",
    team_slug := none, conference := some "western conference", playoff_rank := some 1,
    wins := some 30, losses := some 20, win_pct := some 0, l10 := none, streak := none }

def mixedTeams : List Team :=
  [teamWestLowPct, teamEastSecond, teamWestHighPct, teamEastFirst]

theorem standings_partition_exactly_one_and_sorted_witness :
    (∀ t ∈ mixedTeams,
        jsToLower (t.conference.getD "") = "eastern conference"
        ∨ jsToLower (t.conference.getD "") = "western conference")
    ∧ ((sortStandings mixedTeams).Perm mixedTeams
        ∧ (∀ t ∈ mixedTeams,
            (t ∈ eastOf (sortStandings mixedTeams) ∧ t ∉ westOf (sortStandings mixedTeams))
            ∨ (t ∈ westOf (sortStandings mixedTeams) ∧ t ∉ eastOf (sortStandings mixedTeams)))
        ∧ (eastOf (sortStandings mixedTeams)).length
            + (westOf (sortStandings mixedTeams)).length = mixedTeams.length
        ∧ List.Pairwise rankPctLE (eastOf (sortStandings mixedTeams))
        ∧ List.Pairwise rankPctLE (westOf (sortStandings mixedTeams))) :=
  ⟨by decide, standings_partition_exactly_one_and_sorted mixedTeams (by decide)⟩

/-! ## Pagination-reset races: a Leaders page that has loaded an extra page -/

def rowsTwenty : List Leader := List.replicate 20 leaderAlpha

def body3ptTen : LeadersResponse :=
  { season := "2025-26", min_3pa := some 50, min_fga := none, min_gp := 10,
    limit := 10, count := 10, leaders := some rowsTen, generated_at := "", source := "" }

def body3ptTwenty : LeadersResponse :=
  { season := "2025-26", min_3pa := some 50, min_fga := none, min_gp := 10,
    limit := 20, count := 20, leaders := some rowsTwenty, generated_at := "", source := "" }

/-- The Leaders page after one Load more: 20 committed rows at limit 20. -/
def leadersAt20App : AppState :=
  { initialApp with tab := .leaders, leadersStatus := .ok, leaders := rowsTwenty,
                    leadersLimit := 20, canLoadMore := true }

def leadersAt20Sys : Sys :=
  { app := leadersAt20App, leadersReqs := [], searchReqs := [], jumpReqs := [],
    lastNReqs := [], debounceTimer := none }

/-- Mid-transition back to the Leaders page, still holding the extra page. -/
def reenterAt20App : AppState :=
  { initialApp with tab := .standings, isTabTransitioning := true,
                    pendingTab := some .leaders, leadersStatus := .ok,
                    leaders := rowsTwenty, leadersLimit := 20, canLoadMore := true }

def reenterAt20Sys : Sys :=
  { app := reenterAt20App, leadersReqs := [], searchReqs := [], jumpReqs := [],
    lastNReqs := [], debounceTimer := none }

/-- Re-entry at limit 20, with the limit-10 response resolving first and the
stale limit-20 response resolving last. -/
def afterReentryRace : Sys :=
  leadersRespondSys (leadersEndpoint .threePt 20) (.response true (some body3ptTwenty))
    (leadersRespondSys (leadersEndpoint .threePt 10) (.response true (some body3ptTen))
      (swapFireSys reenterAt20Sys))

/-- C6 counterexample: on a Leaders page whose limit is 20, switching the
category issues its first fetch with the pre-reset limit 20 — the render's
`leadersEndpoint` memo cannot see the reset scheduled in the same commit —
so the pagination state is not reset before the next fetch fires. -/
theorem category_change_first_fetch_uses_pre_reset_limit :
    (changeCategorySys .pts leadersAt20Sys).leadersReqs.head?
      = some (leadersEndpoint .pts 20)
    ∧ (leadersEndpoint .pts 20).limit ≠ 10 := by
  exact ⟨by decide, by decide⟩

/-- C6 (amended): changing the leaderboard category resets the pagination
limit to the base page size (10) and the more-available flag to true in the
committed state and activates the new category, but the reset lands only
after the same commit's fetch effect has fired with the pre-reset limit: on
the Leaders page the first fetch after the change carries the old limit,
and exactly when the old limit differed from 10 a second fetch at limit 10
follows. -/
theorem category_change_reset_lands_after_stale_fetch (t : LeaderTab) (s : Sys)
    (h : t ≠ s.app.leaderTab) :
    (changeCategorySys t s).app.leadersLimit = 10
    ∧ (changeCategorySys t s).app.canLoadMore = true
    ∧ (changeCategorySys t s).app.leaderTab = t
    ∧ (s.app.tab = .leaders →
        (changeCategorySys t s).leadersReqs
          = s.leadersReqs ++ [leadersEndpoint t s.app.leadersLimit]
              ++ (if s.app.leadersLimit = 10 then [] else [leadersEndpoint t 10]))
    ∧ (s.app.tab ≠ .leaders → (changeCategorySys t s).leadersReqs = s.leadersReqs) := by
  by_cases htab : s.app.tab = AppTab.leaders <;>
    by_cases hlim : s.app.leadersLimit = 10 <;>
      simp [changeCategorySys, h, htab, hlim, fetchLeadersStart, IMPLEMENTED_ROUTES,
            leaderTabResetEffect]

theorem category_change_reset_lands_after_stale_fetch_witness :
    (LeaderTab.pts ≠ leadersAt20Sys.app.leaderTab)
    ∧ (changeCategorySys .pts leadersAt20Sys).app.leadersLimit = 10
    ∧ (changeCategorySys .pts leadersAt20Sys).app.canLoadMore = true
    ∧ (changeCategorySys .pts leadersAt20Sys).leadersReqs
        = [leadersEndpoint .pts 20, leadersEndpoint .pts 10] := by
  have h := category_change_reset_lands_after_stale_fetch .pts leadersAt20Sys (by decide)
  exact ⟨by decide, h.1, h.2.1, (h.2.2.2.1 (by decide)).trans (by decide)⟩

/-- C10 counterexample: re-entering the Leaders page at limit 20 issues two
fetches, the first at the stale limit 20; when that stale response resolves
last, the committed list again holds all 20 previously loaded rows with the
more-available flag recomputed as true — the extra pages are not discarded
on this return to the page. -/
theorem leaders_reentry_extra_pages_can_survive :
    (swapFireSys reenterAt20Sys).leadersReqs
      = [leadersEndpoint .threePt 20, leadersEndpoint .threePt 10]
    ∧ afterReentryRace.app.leadersLimit = 10
    ∧ afterReentryRace.app.leaders.length = 20
    ∧ afterReentryRace.app.canLoadMore = true
    ∧ afterReentryRace.app.leadersStatus = .ok := by
  exact ⟨by decide, by decide, by decide, by decide, by decide⟩

/-- C10 (amended): when the swap timer lands the application on the Leaders
tab, the re-entry effect resets the committed limit to the base page size
and the more-available flag to true while the category and the committed
rows are untouched; but the same commit's fetch effect first fires with the
pre-reset limit, and a second fetch at limit 10 follows exactly when the
prior limit differed from 10 — so extra pages are only discarded if the
limit-10 response resolves last. -/
theorem leaders_reentry_reset_with_double_fetch (s : Sys)
    (h1 : s.app.pendingTab = some .leaders) (h2 : s.app.tab ≠ .leaders) :
    (swapFireSys s).app.leadersLimit = 10
    ∧ (swapFireSys s).app.canLoadMore = true
    ∧ (swapFireSys s).app.leaderTab = s.app.leaderTab
    ∧ (swapFireSys s).app.leaders = s.app.leaders
    ∧ (swapFireSys s).leadersReqs
        = s.leadersReqs ++ [leadersEndpoint s.app.leaderTab s.app.leadersLimit]
            ++ (if s.app.leadersLimit = 10 then [] else [leadersEndpoint s.app.leaderTab 10]) := by
  have hswap : tabSwapFire s.app = { s.app with tab := .leaders } := by
    simp [tabSwapFire, h1]
  rw [swapFireSys, hswap]
  rw [if_neg (by simpa using (Ne.symm h2))]
  by_cases hlim : s.app.leadersLimit = 10 <;>
    simp [tabEnterResetEffect, fetchLeadersStart, IMPLEMENTED_ROUTES, hlim]

theorem leaders_reentry_reset_with_double_fetch_witness :
    reenterAt20Sys.app.pendingTab = some .leaders
    ∧ reenterAt20Sys.app.tab ≠ .leaders
    ∧ (swapFireSys reenterAt20Sys).app.leadersLimit = 10
    ∧ (swapFireSys reenterAt20Sys).app.canLoadMore = true
    ∧ (swapFireSys reenterAt20Sys).app.leaders = reenterAt20Sys.app.leaders
    ∧ (swapFireSys reenterAt20Sys).leadersReqs
        = [leadersEndpoint .threePt 20, leadersEndpoint .threePt 10] := by
  have h := leaders_reentry_reset_with_double_fetch reenterAt20Sys (by decide) (by decide)
  exact ⟨by decide, by decide, h.1, h.2.1, h.2.2.2.1, h.2.2.2.2.trans (by decide)⟩
